import Mathlib

/-!
Shallow embedding of `src/inconsistencias_novedades.py`, a one-shot batch
script that reconciles a PostgreSQL table with an XML export.

Python dictionaries are modelled as association lists (`List (String × String)`)
with insertion-order semantics: inserting under an existing key updates the
value in place (keeping the original position), a new key is appended at the
end.  The Python `set` used by `find_missing_records` is modelled by list
membership (`List.contains`), which has the same membership semantics.

External effects (the psycopg2 connection and cursor, `ET.parse`, the log
file) are modelled as explicit inputs: a `RunEnv` records whether the
connection succeeded, the outcome of the DB query (rows or a data-access
failure), the outcome of the XML parse (the list of `<mutacion_rectificacion>`
elements, or a parse failure), and whether some stage of the `try` body
raises an exception that its own stage does not catch (e.g. a log write
failing).  `main` then mirrors the control flow of the script's `main`,
including the `try`/`finally` that closes the connection.
-/

/-- A Python dict as an insertion-ordered association list. -/
abbrev Dict := List (String × String)

/-- Python dict assignment `d[k] = v`: updating an existing key keeps its
position and replaces the value; a new key is appended at the end. -/
def dictInsert (d : Dict) (k v : String) : Dict :=
  if d.any (fun kv => kv.1 == k) then
    d.map (fun kv => if kv.1 == k then (k, v) else kv)
  else
    d ++ [(k, v)]

/-- Python `d.values()`, in iteration (insertion) order. -/
def dict_values (d : Dict) : List String := d.map Prod.snd

/-- Line 90: `{row[0]: row[1] for row in result}` — the dict comprehension
over the fetched rows (query order), with dict last-wins semantics. -/
def dict_of_rows (rows : List (String × String)) : Dict :=
  rows.foldl (fun d row => dictInsert d row.1 row.2) []

/-- Lines 69–93, `get_table_data`: on a successful query it returns the
dict of rows; any exception is caught and an empty dict is returned. -/
def get_table_data (q : Except Unit (List (String × String))) : Dict :=
  match q with
  | .ok rows => dict_of_rows rows
  | .error _ => []

/-- One `<mutacion_rectificacion>` element.  The outer `Option` is whether
`record.find(tag)` found the child element at all (`none` = element absent,
so `.text` raises `AttributeError`); the inner `Option` is the element's
`.text` (`none` for an empty element). -/
structure XmlRecord where
  radicado : Option (Option String)
  resolucion : Option (Option String)

/-- Python truthiness of a `.text` value: `None` and the empty string are
falsy, every other string is truthy. -/
def pyTruthy : Option String → Bool
  | none => false
  | some s => !(s == "")

/-- The string stored when the record is indexed (the truthy `.text`). -/
def textOf : Option String → String
  | none => ""
  | some s => s

/-- Lines 106–110: the `for record in root.findall(...)` loop.  Reading
`.text` on an absent child element raises (`.error`), which aborts the whole
loop; otherwise the record is indexed only when both texts are truthy. -/
def parseLoop : List XmlRecord → Dict → Except Unit Dict
  | [], acc => .ok acc
  | r :: rs, acc =>
    match r.radicado with
    | none => .error ()
    | some rid =>
      match r.resolucion with
      | none => .error ()
      | some rval =>
        if pyTruthy rid && pyTruthy rval then
          parseLoop rs (dictInsert acc (textOf rid) (textOf rval))
        else
          parseLoop rs acc

/-- Lines 95–126, `parse_xml`: the input is either a parse failure of the
document itself (`.error`) or the list of record elements.  Any exception —
from `ET.parse` or from the record loop — is caught by the single `except`
and an empty dict is returned. -/
def parse_xml (input : Except Unit (List XmlRecord)) : Dict :=
  match input with
  | .error _ => []
  | .ok records =>
    match parseLoop records [] with
    | .ok d => d
    | .error _ => []

/-- Lines 128–149, `find_missing_records`: keep the `db_data` entries whose
value is not among the values of `xml_data`. -/
def find_missing_records (db_data xml_data : Dict) : Dict :=
  let xml_values := dict_values xml_data
  db_data.filter (fun kv => !(xml_values.contains kv.2))

/-- The two dict arguments of `find_missing_records`, as an explicit heap for
the frame property: the body only reads them (`.values()`, `.items()`,
membership tests), so the state component is returned unchanged. -/
structure PyState where
  db_data : Dict
  xml_data : Dict

/-- `find_missing_records` with its inputs threaded as explicit state:
every dict operation the body performs is a read, so the final state is the
initial one. -/
def find_missing_records_st (s : PyState) : Dict × PyState :=
  let xml_values := dict_values s.xml_data
  let missing_records := s.db_data.filter (fun kv => !(xml_values.contains kv.2))
  (missing_records, s)

/- ------------------------------------------------------------------ -/
/- Reporter: the generated SQL text (lines 181–191).                   -/
/- ------------------------------------------------------------------ -/

/-- A single-quote character, as a string. -/
def sglq : String := String.singleton (Char.ofNat 39)

/-- Line 187: the f-string piece `f"'{value}'"` — the value is interpolated
verbatim between two quote characters, with no escaping. -/
def quoted_value (v : String) : String := sglq ++ v ++ sglq

/-- Line 187: the generator `(f"'{value}'" for value in missing_records.values())`. -/
def in_list_parts (missing_records : Dict) : List String :=
  (dict_values missing_records).map quoted_value

/-- Line 187: `', '.join(...)` over the quoted values. -/
def in_list (missing_records : Dict) : String :=
  String.intercalate ", " (in_list_parts missing_records)

/-- Lines 182–189: the generated SQL query text. -/
def build_sql_query (table town date_i date_f : String) (missing_records : Dict) : String :=
  "\n            SELECT * \n            FROM " ++ table ++
  "\n            WHERE town = " ++ sglq ++ town ++ sglq ++
  "\n              AND estado_actual_fecha_inicio BETWEEN " ++ sglq ++ date_i ++ sglq ++
  " AND " ++ sglq ++ date_f ++ sglq ++
  "\n              AND resolution_number IN (" ++ in_list missing_records ++
  ")\n            ORDER BY resolution_date ASC;\n            "

/- ------------------------------------------------------------------ -/
/- The `main` pipeline (lines 151–196).                                -/
/- ------------------------------------------------------------------ -/

/-- Hard-coded table name (line 163). -/
def db_table_name : String := "data.tramite"

/-- Hard-coded municipality code (line 164). -/
def db_town : String := "25168"

/-- Hard-coded start date (line 165). -/
def db_date_i : String := "2024-11-01"

/-- Hard-coded end date (line 166). -/
def db_date_f : String := "2024-12-12"

/-- The four stages inside `main`'s `try` block. -/
inductive Stage
  | dbRead
  | xmlParse
  | reconcile
  | report
deriving DecidableEq

/-- The external world of one run: connection outcome, DB query outcome,
XML parse outcome, and an optional stage whose call raises an exception that
escapes the stage (e.g. a log write failing inside it). -/
structure RunEnv where
  connOk : Bool
  dbQuery : Except Unit (List (String × String))
  xmlInput : Except Unit (List XmlRecord)
  raiseAt : Option Stage

/-- Observable outcome of one run of `main`. -/
structure RunResult where
  aborted : Bool
  missing : Option Dict
  sqlQuery : Option String
  connClosed : Bool
  raised : Bool

/-- The `try` block of `main` (lines 161–191): DB read, XML parse,
reconciliation, then the conditional SQL report.  `.error` means an
exception escaped that stage. -/
def runBody (env : RunEnv) : Except Unit (Dict × Option String) :=
  if env.raiseAt = some Stage.dbRead then .error () else
  let db_data := get_table_data env.dbQuery
  if env.raiseAt = some Stage.xmlParse then .error () else
  let xml_data := parse_xml env.xmlInput
  if env.raiseAt = some Stage.reconcile then .error () else
  let missing_records := find_missing_records db_data xml_data
  if env.raiseAt = some Stage.report then .error () else
  let sql := if missing_records.isEmpty then none
    else some (build_sql_query db_table_name db_town db_date_i db_date_f missing_records)
  .ok (missing_records, sql)

/-- Lines 151–196, `main`: a failed connection returns at once (nothing to
close); otherwise the `try` body runs and the `finally` closes the
connection on both the normal and the exceptional exit. -/
def main_run (env : RunEnv) : RunResult :=
  if env.connOk then
    match runBody env with
    | .ok (m, q) =>
      { aborted := false, missing := some m, sqlQuery := q
        connClosed := true, raised := false }
    | .error _ =>
      { aborted := false, missing := none, sqlQuery := none
        connClosed := true, raised := true }
  else
    { aborted := true, missing := none, sqlQuery := none
      connClosed := false, raised := false }

/- ------------------------------------------------------------------ -/
/- Helper lemmas (shared).                                             -/
/- ------------------------------------------------------------------ -/

theorem find_missing_records_nil_xml (d : Dict) :
    find_missing_records d [] = d := by
  simp [find_missing_records, dict_values]

theorem find_missing_records_nil_db (x : Dict) :
    find_missing_records [] x = [] := rfl

theorem mem_find_missing_records (db xml : Dict) (k v : String) :
    (k, v) ∈ find_missing_records db xml ↔
      ((k, v) ∈ db ∧ v ∉ dict_values xml) := by
  simp [find_missing_records, List.mem_filter]

/- ------------------------------------------------------------------ -/
/- Claim theorems.                                                     -/
/- ------------------------------------------------------------------ -/

/-- C1: `find_missing_records db xml` is a sub-mapping of `db` (an
order-preserving selection of its entries), and a pair `(k, v)` of `db` is
retained iff `v` is absent from the value-set of `xml`; membership is by
value only, never by key correspondence, so a value present under any key of
`xml` excludes every `db` entry carrying it. -/
theorem find_missing_records_submapping (db xml : Dict) :
    List.Sublist (find_missing_records db xml) db ∧
    (∀ k v, (k, v) ∈ find_missing_records db xml ↔
      ((k, v) ∈ db ∧ v ∉ dict_values xml)) := by
  exact ⟨List.filter_sublist db, fun k v => mem_find_missing_records db xml k v⟩

/-- C5: the Reconciler's edge cases — an empty XML index passes the whole
DB index through, an empty DB index yields an empty result, and the function
is total (it always returns a mapping). -/
theorem find_missing_records_edge_cases (db xml : Dict) :
    find_missing_records db [] = db ∧
    find_missing_records [] xml = [] ∧
    ∃ result, find_missing_records db xml = result := by
  exact ⟨find_missing_records_nil_xml db, find_missing_records_nil_db xml,
    ⟨find_missing_records db xml, rfl⟩⟩

/-- C7: the Reconciler is deterministic (two runs on the same pair of inputs
give the same result) and idempotent (running it again on its own output
changes nothing). -/
theorem find_missing_records_idempotent (db xml : Dict) :
    find_missing_records db xml = find_missing_records db xml ∧
    find_missing_records (find_missing_records db xml) xml =
      find_missing_records db xml := by
  refine ⟨rfl, ?_⟩
  simp [find_missing_records, List.filter_filter]

/-- C9: `find_missing_records` does not mutate its inputs: with the two
dicts threaded as explicit state, the final state equals the initial state
component-wise (same keys, same values, same order), and the returned value
agrees with the pure function. -/
theorem find_missing_records_frame (s : PyState) :
    (find_missing_records_st s).2.db_data = s.db_data ∧
    (find_missing_records_st s).2.xml_data = s.xml_data ∧
    (find_missing_records_st s).1 =
      find_missing_records s.db_data s.xml_data := by
  exact ⟨rfl, rfl, rfl⟩

/- ------------------------------------------------------------------ -/
/- Helper lemmas about the XML record loop and the completed run.      -/
/- ------------------------------------------------------------------ -/

theorem parseLoop_skip (r : XmlRecord) (rid rval : Option String)
    (hrid : r.radicado = some rid) (hrval : r.resolucion = some rval)
    (hfalse : (pyTruthy rid && pyTruthy rval) = false) :
    ∀ (pre post : List XmlRecord) (acc : Dict),
      parseLoop (pre ++ r :: post) acc = parseLoop (pre ++ post) acc := by
  intro pre
  induction pre with
  | nil =>
    intro post acc
    simp [parseLoop, hrid, hrval, hfalse]
  | cons a pre ih =>
    intro post acc
    cases ha : a.radicado with
    | none => simp [parseLoop, ha]
    | some arid =>
      cases hb : a.resolucion with
      | none => simp [parseLoop, ha, hb]
      | some arval =>
        simp only [List.cons_append, parseLoop, ha, hb]
        cases hc : (pyTruthy arid && pyTruthy arval) <;> simp [ih]

theorem parseLoop_abort (r : XmlRecord)
    (h : r.radicado = none ∨ ∃ rid, r.radicado = some rid ∧ r.resolucion = none) :
    ∀ (pre post : List XmlRecord) (acc : Dict),
      parseLoop (pre ++ r :: post) acc = .error () := by
  intro pre
  induction pre with
  | nil =>
    intro post acc
    rcases h with h1 | ⟨rid, h1, h2⟩
    · simp [parseLoop, h1]
    · simp [parseLoop, h1, h2]
  | cons a pre ih =>
    intro post acc
    cases ha : a.radicado with
    | none => simp [parseLoop, ha]
    | some arid =>
      cases hb : a.resolucion with
      | none => simp [parseLoop, ha, hb]
      | some arval =>
        simp only [List.cons_append, parseLoop, ha, hb]
        cases hc : (pyTruthy arid && pyTruthy arval) <;> simp [ih]

theorem main_run_completed (env : RunEnv)
    (hc : env.connOk = true) (hr : env.raiseAt = none) :
    main_run env =
      { aborted := false
        missing := some (find_missing_records (get_table_data env.dbQuery)
          (parse_xml env.xmlInput))
        sqlQuery :=
          if (find_missing_records (get_table_data env.dbQuery)
              (parse_xml env.xmlInput)).isEmpty then none
          else some (build_sql_query db_table_name db_town db_date_i db_date_f
            (find_missing_records (get_table_data env.dbQuery)
              (parse_xml env.xmlInput)))
        connClosed := true
        raised := false } := by
  simp [main_run, runBody, hc, hr]

/- ------------------------------------------------------------------ -/
/- C3: malformed XML records.                                          -/
/- ------------------------------------------------------------------ -/

/-- C3 counterexample: a document holding a well-formed record ("a", "R100")
followed by a record whose `radicado` child element is absent.  Reading
`.text` on the absent element raises, the single `except` catches it, and
`parse_xml` returns the empty dict — so the well-formed sibling is NOT
indexed, refuting the claim that a malformed record only contributes
nothing while the rest of the document is still indexed.  (Alone, the
well-formed record would be indexed.) -/
theorem parse_xml_missing_element_cex :
    parse_xml (Except.ok
      [{ radicado := some (some "a"), resolucion := some (some "R100") },
       { radicado := none, resolucion := some (some "R200") }]) = [] ∧
    ("a", "R100") ∉ parse_xml (Except.ok
      [{ radicado := some (some "a"), resolucion := some (some "R100") },
       { radicado := none, resolucion := some (some "R200") }]) ∧
    parse_xml (Except.ok
      [{ radicado := some (some "a"), resolucion := some (some "R100") }]) =
      [("a", "R100")] := by
  refine ⟨rfl, ?_, rfl⟩
  decide

/-- C3 amended: a record whose two child elements are both present but at
least one of whose text values is falsy (absent or empty) is skipped
recoverably — it contributes nothing and the rest of the document is indexed
exactly as if the record were not there; but a record missing either child
element entirely aborts the whole parse, and `parse_xml` returns the empty
index for the whole document. -/
theorem parse_xml_skip_amended (pre post : List XmlRecord) (r : XmlRecord) :
    (∀ rid rval, r.radicado = some rid → r.resolucion = some rval →
      (pyTruthy rid && pyTruthy rval) = false →
      parse_xml (.ok (pre ++ r :: post)) = parse_xml (.ok (pre ++ post))) ∧
    ((r.radicado = none ∨ ∃ rid, r.radicado = some rid ∧ r.resolucion = none) →
      parse_xml (.ok (pre ++ r :: post)) = []) := by
  constructor
  · intro rid rval hrid hrval hfalse
    simp [parse_xml, parseLoop_skip r rid rval hrid hrval hfalse pre post]
  · intro h
    simp [parse_xml, parseLoop_abort r h pre post]

/-- C3 amended, witness: a record with present-but-empty text is skipped and
its well-formed sibling is kept; a record with an absent element empties the
whole index. -/
theorem parse_xml_skip_amended_witness :
    parse_xml (Except.ok
      [{ radicado := some (some "a"), resolucion := some (some "R100") },
       { radicado := some (some ""), resolucion := some (some "R200") }]) =
      parse_xml (Except.ok
        [{ radicado := some (some "a"), resolucion := some (some "R100") }]) ∧
    parse_xml (Except.ok
      [{ radicado := some (some "b"), resolucion := some (some "R300") },
       { radicado := some (some "c"), resolucion := none }]) = [] := by
  constructor
  · exact (parse_xml_skip_amended
      [{ radicado := some (some "a"), resolucion := some (some "R100") }] []
      { radicado := some (some ""), resolucion := some (some "R200") }).1
      (some "") (some "R200") rfl rfl rfl
  · exact (parse_xml_skip_amended
      [{ radicado := some (some "b"), resolucion := some (some "R300") }] []
      { radicado := some (some "c"), resolucion := none }).2
      (Or.inr ⟨some "c", rfl, rfl⟩)

/- ------------------------------------------------------------------ -/
/- C2: DB query failure after a successful connection.                 -/
/- ------------------------------------------------------------------ -/

/-- A run whose connection succeeds but whose DB query raises. -/
def c2_env : RunEnv :=
  { connOk := true, dbQuery := .error (), xmlInput := .ok [], raiseAt := none }

/-- C2 counterexample: when the DB query fails after a successful
connection, the run is NOT aborted — `get_table_data` swallows the failure
and returns an empty dict, and reconciliation is still attempted (it
produces an empty missing set) before the run completes normally. -/
theorem db_query_failure_cex :
    (main_run c2_env).aborted = false ∧
    (main_run c2_env).missing = some [] ∧
    (main_run c2_env).raised = false := by
  exact ⟨rfl, rfl, rfl⟩

/-- C2 amended: a DB query failure after a successful connection is caught
inside `get_table_data`, which returns an empty `DatabaseIndex`; the run
continues, reconciliation proceeds against the empty index and yields an
empty `MissingSet`, no SQL query is emitted, and the run completes with the
connection closed.  Only the initial connection failure aborts the run. -/
theorem db_query_failure_amended (env : RunEnv)
    (hc : env.connOk = true) (hq : env.dbQuery = .error ())
    (hr : env.raiseAt = none) :
    (main_run env).aborted = false ∧
    (main_run env).missing = some [] ∧
    (main_run env).sqlQuery = none ∧
    (main_run env).connClosed = true := by
  rw [main_run_completed env hc hr]
  simp [hq, get_table_data, find_missing_records_nil_db]

/-- C2 amended, witness. -/
theorem db_query_failure_amended_witness :
    (main_run c2_env).aborted = false ∧
    (main_run c2_env).missing = some [] ∧
    (main_run c2_env).sqlQuery = none ∧
    (main_run c2_env).connClosed = true :=
  db_query_failure_amended c2_env rfl rfl rfl

/- ------------------------------------------------------------------ -/
/- C4: unparsable XML input.                                           -/
/- ------------------------------------------------------------------ -/

/-- How the report stage decides whether to emit SQL text: `none` iff the
missing set is empty, and the built query otherwise. -/
theorem emit_sql_cases (m : Dict) (q : String) :
    ((if m.isEmpty then none else some q) = none ↔ m = []) ∧
    (m ≠ [] → (if m.isEmpty then none else some q) = some q) := by
  cases m <;> simp

/-- A run with a successful connection, an empty DB result set, and an
unparsable XML document. -/
def c4_env : RunEnv :=
  { connOk := true, dbQuery := .ok [], xmlInput := .error (), raiseAt := none }

/-- A run with a successful connection, one DB row, and an unparsable XML
document. -/
def c4_env1 : RunEnv :=
  { connOk := true, dbQuery := .ok [("1", "R100")], xmlInput := .error ()
    raiseAt := none }

/-- C4 counterexample: with an unparsable XML file and an empty
`DatabaseIndex`, the `MissingSet` does equal the full (empty)
`DatabaseIndex`, but NO SQL query is generated — refuting the unconditional
"a SQL query listing every DB resolution value is still generated". -/
theorem xml_unparsable_cex :
    (main_run c4_env).missing = some [] ∧
    (main_run c4_env).sqlQuery = none := by
  exact ⟨rfl, rfl⟩

/-- C4 amended: for every run whose XML input is unparsable, `parse_xml`
returns an empty index and the run continues: the `MissingSet` equals the
full `DatabaseIndex`, and — whenever the `DatabaseIndex` is non-empty — a
SQL query listing every DB resolution value is generated. -/
theorem xml_unparsable_amended (env : RunEnv)
    (hc : env.connOk = true) (hx : env.xmlInput = .error ())
    (hr : env.raiseAt = none) :
    parse_xml env.xmlInput = [] ∧
    (main_run env).missing = some (get_table_data env.dbQuery) ∧
    (get_table_data env.dbQuery ≠ [] →
      (main_run env).sqlQuery = some (build_sql_query db_table_name db_town
        db_date_i db_date_f (get_table_data env.dbQuery))) := by
  have hparse : parse_xml env.xmlInput = [] := by rw [hx]; rfl
  rw [main_run_completed env hc hr, hparse, find_missing_records_nil_xml]
  exact ⟨rfl, rfl, (emit_sql_cases (get_table_data env.dbQuery) _).2⟩

/-- C4 amended, witness: one DB row, unparsable XML — the row is reported
missing and the generated query lists its resolution value. -/
theorem xml_unparsable_amended_witness :
    parse_xml c4_env1.xmlInput = [] ∧
    (main_run c4_env1).missing = some [("1", "R100")] ∧
    (main_run c4_env1).sqlQuery = some (build_sql_query db_table_name db_town
      db_date_i db_date_f [("1", "R100")]) := by
  have h := xml_unparsable_amended c4_env1 rfl rfl rfl
  exact ⟨h.1, h.2.1, h.2.2 (by decide)⟩

/- ------------------------------------------------------------------ -/
/- C6: the SQL query is emitted iff the missing set is non-empty.      -/
/- ------------------------------------------------------------------ -/

/-- A completed run with one DB row and an XML index without its value. -/
def c6_env : RunEnv :=
  { connOk := true, dbQuery := .ok [("1", "R100")], xmlInput := .ok []
    raiseAt := none }

/-- A completed run with no DB rows. -/
def c6_env0 : RunEnv :=
  { connOk := true, dbQuery := .ok [], xmlInput := .ok [], raiseAt := none }

/-- C6: on every completed run, the missing set is the reconciler's output,
no SQL text is emitted iff that set is empty, and when it is non-empty the
emitted text is exactly the query built from the same table, municipality
and date parameters with the missing values in the IN (...) condition,
ordered by resolution date. -/
theorem sql_query_iff_missing (env : RunEnv)
    (hc : env.connOk = true) (hr : env.raiseAt = none) :
    (main_run env).missing = some (find_missing_records
      (get_table_data env.dbQuery) (parse_xml env.xmlInput)) ∧
    ((main_run env).sqlQuery = none ↔
      find_missing_records (get_table_data env.dbQuery)
        (parse_xml env.xmlInput) = []) ∧
    (find_missing_records (get_table_data env.dbQuery)
        (parse_xml env.xmlInput) ≠ [] →
      (main_run env).sqlQuery = some (build_sql_query db_table_name db_town
        db_date_i db_date_f (find_missing_records (get_table_data env.dbQuery)
          (parse_xml env.xmlInput)))) := by
  rw [main_run_completed env hc hr]
  exact ⟨rfl, (emit_sql_cases _ _).1, (emit_sql_cases _ _).2⟩

/-- C6 witness: a run with one DB row absent from the XML emits the query
built from that row, and a run with no DB rows emits none. -/
theorem sql_query_iff_missing_witness :
    (main_run c6_env).sqlQuery = some (build_sql_query db_table_name db_town
      db_date_i db_date_f [("1", "R100")]) ∧
    (main_run c6_env0).sqlQuery = none := by
  constructor
  · exact (sql_query_iff_missing c6_env rfl rfl).2.2 (by decide)
  · exact (sql_query_iff_missing c6_env0 rfl rfl).2.1.mpr rfl

/- ------------------------------------------------------------------ -/
/- C8: the connection is released on every exit path.                  -/
/- ------------------------------------------------------------------ -/

/-- A run whose reporting stage raises after a successful connection. -/
def c8_env : RunEnv :=
  { connOk := true, dbQuery := .ok [("1", "R100")], xmlInput := .ok []
    raiseAt := some Stage.report }

/-- C8: whenever the initial connection succeeds, the `finally` block closes
it on every exit path of the `try` body — on normal completion and also when
the DB read, XML parse, reconciliation or reporting stage raises. -/
theorem connection_always_released (env : RunEnv) (hc : env.connOk = true) :
    (main_run env).connClosed = true := by
  cases hb : runBody env with
  | ok p => cases p with
    | mk m q => simp [main_run, hc, hb]
  | error e => simp [main_run, hc, hb]

/-- C8 witness: even when the reporting stage raises, the connection is
closed. -/
theorem connection_always_released_witness :
    (main_run c8_env).connClosed = true :=
  connection_always_released c8_env rfl

/- ------------------------------------------------------------------ -/
/- C10: the shape of the generated IN (...) value list.                -/
/- ------------------------------------------------------------------ -/

/-- C10: the rendered IN (...) list has exactly one entry per entry of the
missing mapping — the value interpolated verbatim between two single-quote
characters, with no escaping and no deduplication — in the mapping's own
iteration order, which is the `DatabaseIndex` order (the missing mapping is
an order-preserving selection from the DB index); the overall list is these
parts joined with a comma separator. -/
theorem in_list_verbatim (db xml : Dict) :
    in_list_parts (find_missing_records db xml) =
      (find_missing_records db xml).map (fun kv => sglq ++ kv.2 ++ sglq) ∧
    (in_list_parts (find_missing_records db xml)).length =
      (find_missing_records db xml).length ∧
    List.Sublist (find_missing_records db xml) db ∧
    in_list (find_missing_records db xml) =
      String.intercalate ", " (in_list_parts (find_missing_records db xml)) := by
  refine ⟨?_, ?_, List.filter_sublist db, rfl⟩
  · simp [in_list_parts, dict_values, quoted_value, List.map_map]
  · simp [in_list_parts, dict_values]
